import Mathlib

/-!
Verification development for the `nestjs-redlock-universal` repository: a
NestJS wrapper exposing distributed locks (single-node "simple" strategy for
1-2 Redis backends, Redlock quorum strategy for 3 or more) through an
injectable coordinator service, a `using` run-with-lock combinator, and a
declarative method decorator.

The DI-module wiring (`src/module/redlock.module.ts`) and the option
interfaces are embedded directly from the TypeScript source.  The coordinator
service, the decorator and the constants file are not present under `src/`
(only their test suites and callers are), so those parts are modelled from
the specification, as marked on each definition.
-/

namespace Redlock

/-! ## Errors

Modelled from the spec taxonomy (section 7): each failure mode carries a
stable message.  The two messages pinned by the spec are the key-validation
message and the not-initialized message. -/

/-- Modelled from the spec: the error taxonomy of section 7 (the constants
file `src/constants.ts` is absent from `src/`).  `invalidKey` is
`InvalidKeyError`, `notInit` is `NotInitializedError`, `configErr` is a
setup-time configuration error for an invalid quorum override. -/
inductive LockError where
  | invalidKey
  | notInit
  | configErr
deriving DecidableEq, Repr

/-- Modelled from the spec: the stable message carried by each error.
The spec fixes "Lock key must be a non-empty string" for key validation and
the tests fix "LockManager not initialized" for the lifecycle error. -/
def LockError.message : LockError → String
  | .invalidKey => "Lock key must be a non-empty string"
  | .notInit => "LockManager not initialized"
  | .configErr => "Invalid quorum configuration"

/-! ## Module wiring (embedded from `src/module/redlock.module.ts`) -/

/-- Embeds `RedlockModuleAsyncOptions` from
`src/interfaces/redlock-module-options.interface.ts`.  Classes (`Type<...>`)
are identified by name; the factory function is identified by an opaque id;
`Option.none` models an absent (`undefined`) field. -/
structure RedlockModuleAsyncOptions where
  imports : Option (List String) := none
  useExisting : Option String := none
  useClass : Option String := none
  useFactory : Option Nat := none
  inject : Option (List String) := none
deriving DecidableEq, Repr

/-- Modelled from the spec: `ERROR_MESSAGES.INVALID_ASYNC_OPTIONS` lives in
the absent `src/constants.ts`; its value is fixed by the module test
(`should throw error if no configuration method provided`). -/
def INVALID_ASYNC_OPTIONS : String := "Invalid RedlockModuleAsyncOptions"

/-- Embeds the provider objects built by
`RedlockModule.createAsyncProviders`: a factory provider for the options
token, an options provider deferring to an options-factory class, and the
binding of that class itself. -/
inductive AsyncProvider where
  | optionsFactory (factoryId : Nat) (inject : List String)
  | optionsFromFactoryClass (cls : String)
  | classBinding (cls : String)
deriving DecidableEq, Repr

/-- Embeds `RedlockModule.createAsyncProviders` from
`src/module/redlock.module.ts` lines 80-109: if `useFactory` is set, one
factory provider with `inject` defaulting to `[]`; otherwise
`useClass || useExisting` is consulted and, when both are absent, the
construction throws `ERROR_MESSAGES.INVALID_ASYNC_OPTIONS`. -/
def createAsyncProviders (options : RedlockModuleAsyncOptions) :
    Except String (List AsyncProvider) :=
  match options.useFactory with
  | some f => .ok [AsyncProvider.optionsFactory f (options.inject.getD [])]
  | none =>
    match options.useClass.orElse (fun _ => options.useExisting) with
    | none => .error INVALID_ASYNC_OPTIONS
    | some cls =>
      .ok [AsyncProvider.optionsFromFactoryClass cls, AsyncProvider.classBinding cls]

/-- Embeds the providers list of the returned module: in the source the
dynamic module lists the async providers followed by `RedlockService`. -/
inductive ModuleProvider where
  | asyncP (p : AsyncProvider)
  | redlockService
deriving DecidableEq, Repr

/-- Embeds the `DynamicModule` value returned by
`RedlockModule.forRootAsync`. -/
structure AsyncDynamicModule where
  imports : List String
  providers : List ModuleProvider
deriving DecidableEq, Repr

/-- Embeds `RedlockModule.forRootAsync` from `src/module/redlock.module.ts`
lines 71-78: `imports` defaults to `[]`, the providers are
`[...createAsyncProviders(options), RedlockService]`, and because the spread
evaluates eagerly, a throw inside `createAsyncProviders` happens during
module construction (modelled as the `Except.error` outcome). -/
def forRootAsync (options : RedlockModuleAsyncOptions) :
    Except String AsyncDynamicModule :=
  match createAsyncProviders options with
  | .error e => .error e
  | .ok ps =>
    .ok { imports := options.imports.getD []
          providers := ps.map ModuleProvider.asyncP ++ [ModuleProvider.redlockService] }

/-! ## Lock coordinator data model

The coordinator service (`src/service/redlock.service.ts`) is absent from
`src/`; the definitions below are modelled from the spec, sections 3 and 4.1,
and exercised against the behaviour its test suites pin down. -/

/-- Modelled from the spec: library defaults of section 6, default TTL
30000 ms (the constants file `src/constants.ts` is absent from `src/`). -/
def DEFAULT_TTL_MS : Nat := 30000

/-- Modelled from the spec: `metadata` of a Lock Handle; `strategy` records
which strategy produced the handle ("simple" or "redlock"). -/
structure LockMetadata where
  strategy : String
deriving DecidableEq, Repr

/-- Modelled from the spec: the Lock Handle tuple of section 3 — key, the
fencing-token value (a fresh token per acquisition, represented by a counter
so freshness is provable), the TTL, and the strategy metadata. -/
structure LockHandle where
  key : String
  value : Nat
  ttl : Nat
  metadata : LockMetadata
deriving DecidableEq, Repr

/-- Modelled from the spec: the configuration surface of section 6 —
`{nodes, quorum?, retryAttempts?, retryDelay?, defaultTtl?}`; `nodes` is
kept as the count of configured backend adapters. -/
structure CoordinatorOptions where
  nodes : Nat
  quorum : Option Nat := none
  retryAttempts : Option Nat := none
  retryDelay : Option Nat := none
  defaultTtl : Option Nat := none
deriving DecidableEq, Repr

/-- Modelled from the spec: the Backend Adapter operations that reach a
backend on the lock hot path (section 6): the atomic set-if-absent (`setNX`)
and the conditional compare-and-delete (`delIfMatch`). -/
inductive BackendOp where
  | setIfAbsent (key : String) (value : Nat) (ttl : Nat)
  | delIfMatch (key : String) (value : Nat)
deriving DecidableEq, Repr

/-- Modelled from the spec: mutable state of one coordinator instance —
whether `onModuleInit` has established the backend set (`initDone`), the
fencing-token counter, the Retained-Lock Cache keyed by lock key, and the
trace of backend operations issued so far. -/
structure CoordinatorState where
  initDone : Bool
  nextToken : Nat
  cache : List (String × LockHandle)
  ops : List BackendOp
deriving DecidableEq, Repr

/-- Modelled from the spec: the Strategy Selection Policy of section 3 — a
pure function of the number of configured backend nodes, {1, 2} giving the
single-node strategy ("simple") and 3 or more the quorum strategy
("redlock"). -/
def selectStrategy (nodes : Nat) : String :=
  if nodes ≤ 2 then "simple" else "redlock"

/-- Modelled from the spec: effective TTL resolution of section 4.1 —
explicit argument, else configured default, else the 30000 ms library
default. -/
def effectiveTtl (ttlArg : Option Nat) (opts : CoordinatorOptions) : Nat :=
  match ttlArg with
  | some t => t
  | none => opts.defaultTtl.getD DEFAULT_TTL_MS

/-- Modelled from the spec: the Retained-Lock Cache write policy of
sections 3 and 5 — the entry for a key is read-and-replaced, never
merged. -/
def cacheReplace (c : List (String × LockHandle)) (k : String) (h : LockHandle) :
    List (String × LockHandle) :=
  (k, h) :: c.filter (fun p => p.1 ≠ k)

/-- Modelled from the spec: `acquire(key, ttl?)` of section 4.1 (success
path; contention and retry exhaustion are external to the claims settled
here).  Fails with `NotInitializedError` before the init step has run and
with `InvalidKeyError` on an empty key, in both cases without contacting a
backend; otherwise issues the atomic set-if-absent, returns a handle with a
fresh value and `metadata.strategy` set by the selection policy, and stores
the handle in the Retained-Lock Cache only on the default-TTL path (an
explicit custom TTL is never cached). -/
def acquire (opts : CoordinatorOptions) (st : CoordinatorState) (key : String)
    (ttlArg : Option Nat) : Except LockError LockHandle × CoordinatorState :=
  if st.initDone = false then (.error .notInit, st)
  else if key = "" then (.error .invalidKey, st)
  else
    let t := effectiveTtl ttlArg opts
    let h : LockHandle :=
      { key := key, value := st.nextToken, ttl := t
        metadata := { strategy := selectStrategy opts.nodes } }
    (.ok h,
      { st with
        nextToken := st.nextToken + 1
        ops := st.ops ++ [BackendOp.setIfAbsent key st.nextToken t]
        cache := if ttlArg.isNone then cacheReplace st.cache key h else st.cache })

/-- Modelled from the spec: `release(key, handle)` of section 4.1 — the
conditional delete keyed on `handle.value` (the tests pin the call shape
`delIfMatch(handle.key, handle.value)`); a non-match is not an error, so
release always records exactly one conditional-delete backend call. -/
def release (st : CoordinatorState) (h : LockHandle) : CoordinatorState :=
  { st with ops := st.ops ++ [BackendOp.delIfMatch h.key h.value] }

/-- Modelled from the spec: `using(key, fn, options?)` of section 4.1.  The
protected function is represented by its outcome (`Except.ok v` for a normal
return of `v`, `Except.error e` for a throw of `e`).  On successful
acquisition the keep-alive loop is started, `fn` runs, and on every exit
path the keep-alive timer is cancelled and the lock released before the
outcome is propagated unchanged; the third component records whether the
keep-alive timer ended cancelled.  On acquisition failure `fn` never runs
and no timer was started. -/
def usingRun {ε α : Type} (opts : CoordinatorOptions) (st : CoordinatorState)
    (key : String) (ttlArg : Option Nat) (fnOutcome : Except ε α) :
    Except LockError (Except ε α) × CoordinatorState × Bool :=
  match acquire opts st key ttlArg with
  | (.error e, st1) => (.error e, st1, false)
  | (.ok h, st1) => (.ok fnOutcome, release st1 h, true)

/-! ## Decorator key derivation

The decorator (`src/decorators/redlock.decorator.ts`) is absent from
`src/`; modelled from the spec, section 4.4, against the decorator test
suite. -/

/-- Modelled from the spec: the dynamic values a key or a key-generator
return can take in the intercepted JavaScript call — a string or some
non-string value. -/
inductive JsVal where
  | vstr (s : String)
  | vnum (n : Int)
  | vnull
deriving DecidableEq, Repr

/-- Modelled from the spec: the `key` field of the declarative lock
specification — a literal string or a function of the call's positional
arguments. -/
inductive LockKeySpec where
  | literal (s : String)
  | fn (f : List JsVal → JsVal)

/-- Modelled from the spec: the declarative lock specification
`{key, ttl?, retryAttempts?, retryDelay?}` of section 4.4. -/
structure RedlockDecoratorSpec where
  key : LockKeySpec
  ttl : Option Nat := none

/-- Modelled from the spec: key resolution of section 4.4 — a key function
is invoked with the exact positional arguments of the intercepted call; a
literal is used directly. -/
def resolveKey (spec : LockKeySpec) (args : List JsVal) : JsVal :=
  match spec with
  | .literal s => .vstr s
  | .fn f => f args

/-- Modelled from the spec: validation of section 4.4 — the resolved key
must be a non-empty string, anything else fails with `InvalidKeyError`. -/
def validateKey : JsVal → Except LockError String
  | .vstr s => if s = "" then .error .invalidKey else .ok s
  | _ => .error .invalidKey

/-- Modelled from the spec: whether a resolved value is a non-empty
string. -/
def isNonEmptyStr : JsVal → Bool
  | .vstr s => !(s = "")
  | _ => false

/-- Modelled from the spec: one intercepted invocation of a decorated
method — the key is resolved and validated before any backend is contacted,
then the call is routed through the coordinator run-with-lock. -/
def decoratorInvoke {ε α : Type} (opts : CoordinatorOptions)
    (st : CoordinatorState) (spec : RedlockDecoratorSpec) (args : List JsVal)
    (fnOutcome : Except ε α) :
    Except LockError (Except ε α) × CoordinatorState × Bool :=
  match validateKey (resolveKey spec.key args) with
  | .error e => (.error e, st, false)
  | .ok k => usingRun opts st k spec.ttl fnOutcome

/-- Modelled from the spec: the example key generator of section 8,
`(id) => ` followed by the template `user:${id}:lock`, applied to the first
positional argument. -/
def userKeyFn (args : List JsVal) : JsVal :=
  match args with
  | JsVal.vstr id :: _ => JsVal.vstr ("user:" ++ id ++ ":lock")
  | _ => JsVal.vnull

/-! ## Quorum computation -/

/-- Modelled from the spec: step 1 of the quorum acquisition algorithm of
section 4.3 — quorum is `ceil((N+1)/2)` (written `(N+1+1)/2` in natural
division) unless an explicit override is configured; an override below 1 or
above N is a configuration error. -/
def computeQuorum (n : Nat) (override : Option Nat) : Except LockError Nat :=
  match override with
  | none => .ok ((n + 1 + 1) / 2)
  | some q => if 1 ≤ q ∧ q ≤ n then .ok q else .error .configErr

/-! ## Helper projections and concrete fixtures -/

/-- The TTL of a successful acquisition outcome. -/
def handleTtl : Except LockError LockHandle → Option Nat
  | .ok h => some h.ttl
  | .error _ => none

/-- The strategy metadata of a successful acquisition outcome. -/
def handleStrategy : Except LockError LockHandle → Option String
  | .ok h => some h.metadata.strategy
  | .error _ => none

/-- Modelled from the spec: acquiring the same key twice with two explicit
TTLs, releasing each handle as it is obtained (the evaluation scenario of
the Retained-Lock Cache property, section 8); returns both acquisition
outcomes and the final coordinator state. -/
def twoAcquireScenario (opts : CoordinatorOptions) (st0 : CoordinatorState)
    (key : String) (t1 t2 : Nat) :
    Except LockError LockHandle × Except LockError LockHandle × CoordinatorState :=
  match acquire opts st0 key (some t1) with
  | (.error e, st1) => (.error e, .error e, st1)
  | (.ok h1, st1) =>
    let st2 := release st1 h1
    match acquire opts st2 key (some t2) with
    | (.error e, st3) => (.ok h1, .error e, st3)
    | (.ok h2, st3) => (.ok h1, .ok h2, release st3 h2)

/-- A concrete single-node configuration for evaluating the theorems. -/
def oneNodeOpts : CoordinatorOptions := { nodes := 1 }

/-- A concrete three-node configuration for evaluating the theorems. -/
def threeNodeOpts : CoordinatorOptions := { nodes := 3 }

/-- A concrete coordinator state after the init step has run. -/
def readyState : CoordinatorState :=
  { initDone := true, nextToken := 0, cache := [], ops := [] }

/-- A concrete coordinator state before the init step has run. -/
def freshState : CoordinatorState :=
  { initDone := false, nextToken := 0, cache := [], ops := [] }

end Redlock

namespace Redlock

/-! ## Theorems for the claims -/

/-- C9: for every `RedlockModuleAsyncOptions` object providing none of
`useFactory`, `useClass`, or `useExisting`, `RedlockModule.forRootAsync`
throws an error whose message contains (here: equals) "Invalid
RedlockModuleAsyncOptions" during module construction, before any lock
operation. -/
theorem forRootAsync_missing_config_throws (options : RedlockModuleAsyncOptions)
    (hf : options.useFactory = none) (hc : options.useClass = none)
    (he : options.useExisting = none) :
    forRootAsync options = .error "Invalid RedlockModuleAsyncOptions" := by
  simp [forRootAsync, createAsyncProviders, hf, hc, he, Option.orElse,
    INVALID_ASYNC_OPTIONS]

/-- Witness for C9 at the empty options object. -/
theorem forRootAsync_missing_config_throws_witness :
    forRootAsync {} = .error "Invalid RedlockModuleAsyncOptions" :=
  forRootAsync_missing_config_throws {} rfl rfl rfl

/-- C10: async configuration precedence — with `useFactory` present,
`createAsyncProviders` returns exactly the one factory provider with
`inject` defaulting to `[]`, regardless of `useClass`/`useExisting`;
`useClass` is consulted before `useExisting` only when `useFactory` is
absent; and `forRootAsync` defaults `imports` to `[]` when not supplied. -/
theorem forRootAsync_provider_precedence :
    (∀ (options : RedlockModuleAsyncOptions) (f : Nat),
      options.useFactory = some f →
      createAsyncProviders options =
        .ok [AsyncProvider.optionsFactory f (options.inject.getD [])]) ∧
    (∀ (options : RedlockModuleAsyncOptions) (c : String),
      options.useFactory = none → options.useClass = some c →
      createAsyncProviders options =
        .ok [AsyncProvider.optionsFromFactoryClass c, AsyncProvider.classBinding c]) ∧
    (∀ (options : RedlockModuleAsyncOptions) (c : String),
      options.useFactory = none → options.useClass = none →
      options.useExisting = some c →
      createAsyncProviders options =
        .ok [AsyncProvider.optionsFromFactoryClass c, AsyncProvider.classBinding c]) ∧
    (∀ (options : RedlockModuleAsyncOptions) (m : AsyncDynamicModule),
      options.imports = none → forRootAsync options = .ok m → m.imports = []) := by
  refine ⟨?_, ?_, ?_, ?_⟩
  · intro options f hf
    simp [createAsyncProviders, hf]
  · intro options c hf hc
    simp [createAsyncProviders, hf, hc, Option.orElse]
  · intro options c hf hc he
    simp [createAsyncProviders, hf, hc, he, Option.orElse]
  · intro options m him hm
    unfold forRootAsync at hm
    cases hps : createAsyncProviders options with
    | error e => rw [hps] at hm; exact absurd hm (by simp)
    | ok ps =>
      rw [hps] at hm
      simp only [Except.ok.injEq] at hm
      rw [← hm]
      simp [him]

/-- Witness for C10 on concrete option objects: a factory ignores a
simultaneously-supplied class and existing provider, `useClass` wins over
`useExisting`, `useExisting` is used when it is alone, and omitted
`imports` become `[]`. -/
theorem forRootAsync_provider_precedence_witness :
    createAsyncProviders
        { useFactory := some 7, useClass := some "A", useExisting := some "B" } =
      .ok [AsyncProvider.optionsFactory 7 []] ∧
    createAsyncProviders { useClass := some "A", useExisting := some "B" } =
      .ok [AsyncProvider.optionsFromFactoryClass "A", AsyncProvider.classBinding "A"] ∧
    createAsyncProviders { useExisting := some "B" } =
      .ok [AsyncProvider.optionsFromFactoryClass "B", AsyncProvider.classBinding "B"] ∧
    ({ imports := []
       providers := [ModuleProvider.asyncP (AsyncProvider.optionsFactory 7 []),
         ModuleProvider.redlockService] } : AsyncDynamicModule).imports = [] :=
  ⟨forRootAsync_provider_precedence.1
      { useFactory := some 7, useClass := some "A", useExisting := some "B" } 7 rfl,
   forRootAsync_provider_precedence.2.1
      { useClass := some "A", useExisting := some "B" } "A" rfl rfl,
   forRootAsync_provider_precedence.2.2.1 { useExisting := some "B" } "B" rfl rfl rfl,
   forRootAsync_provider_precedence.2.2.2 { useFactory := some 7 }
      { imports := []
        providers := [ModuleProvider.asyncP (AsyncProvider.optionsFactory 7 []),
          ModuleProvider.redlockService] } rfl rfl⟩

/-- C6: with no explicit override the quorum for N backends is
`ceil((N+1)/2)`; an explicit override must be at least 1 and at most N,
anything else being a configuration error. -/
theorem computeQuorum_spec :
    (∀ n : Nat, ∃ q : Nat, computeQuorum n none = .ok q ∧
      (q : ℤ) = ⌈(((n : ℕ) : ℚ) + 1) / 2⌉) ∧
    (∀ n q : Nat, 1 ≤ q → q ≤ n → computeQuorum n (some q) = .ok q) ∧
    (∀ n q : Nat, q = 0 ∨ n < q →
      computeQuorum n (some q) = .error .configErr) := by
  refine ⟨?_, ?_, ?_⟩
  · intro n
    refine ⟨(n + 1 + 1) / 2, rfl, ?_⟩
    have h1 : n + 1 ≤ 2 * ((n + 1 + 1) / 2) := by omega
    have h2 : 2 * ((n + 1 + 1) / 2) ≤ n + 2 := by omega
    rw [eq_comm, Int.ceil_eq_iff]
    constructor
    · rw [lt_div_iff₀ (by norm_num : (0 : ℚ) < 2)]
      exact_mod_cast (by linarith [(by exact_mod_cast h2 :
        2 * (((n + 1 + 1) / 2 : ℕ) : ℚ) ≤ (n : ℚ) + 2)] :
        ((((n + 1 + 1) / 2 : ℕ) : ℚ) - 1) * 2 < (n : ℚ) + 1)
    · rw [div_le_iff₀ (by norm_num : (0 : ℚ) < 2)]
      exact_mod_cast (by linarith [(by exact_mod_cast h1 :
        (n : ℚ) + 1 ≤ 2 * (((n + 1 + 1) / 2 : ℕ) : ℚ))] :
        (n : ℚ) + 1 ≤ (((n + 1 + 1) / 2 : ℕ) : ℚ) * 2)
  · intro n q h1 h2
    simp only [computeQuorum]
    rw [if_pos ⟨h1, h2⟩]
  · intro n q h
    simp only [computeQuorum]
    rw [if_neg (by omega)]

/-- Witness for C6: a valid override of 3 on 4 nodes is accepted, an
override of 5 on 4 nodes is a configuration error, and the no-override
quorum for 5 nodes computes to 3. -/
theorem computeQuorum_spec_witness :
    computeQuorum 4 (some 3) = .ok 3 ∧
    computeQuorum 4 (some 5) = .error .configErr ∧
    computeQuorum 5 none = .ok 3 :=
  ⟨computeQuorum_spec.2.1 4 3 (by decide) (by decide),
   computeQuorum_spec.2.2 4 5 (Or.inr (by decide)),
   rfl⟩

/-- C7: `acquire` on a coordinator whose init step has not run fails with
the not-initialized error carrying the stable message "LockManager not
initialized", leaves the state (and so the backend-operation trace)
untouched, and returns no handle. -/
theorem acquire_requires_init (opts : CoordinatorOptions) (st : CoordinatorState)
    (key : String) (ttlArg : Option Nat) (h : st.initDone = false) :
    acquire opts st key ttlArg = (.error .notInit, st) ∧
    (acquire opts st key ttlArg).2.ops = st.ops ∧
    LockError.message .notInit = "LockManager not initialized" := by
  refine ⟨?_, ?_, rfl⟩ <;> simp [acquire, h]

/-- Witness for C7 at a concrete never-inited coordinator. -/
theorem acquire_requires_init_witness :
    acquire oneNodeOpts freshState "test:lock" none = (.error .notInit, freshState) ∧
    (acquire oneNodeOpts freshState "test:lock" none).2.ops = freshState.ops ∧
    LockError.message .notInit = "LockManager not initialized" :=
  acquire_requires_init oneNodeOpts freshState "test:lock" none rfl

/-- C1: strategy selection is a pure function of the configured node count —
every successful `acquire` returns a handle whose `metadata.strategy` is
"simple" for 1 or 2 nodes and "redlock" for 3 or more. -/
theorem acquire_strategy_selection (opts : CoordinatorOptions)
    (st st2 : CoordinatorState) (key : String) (ttlArg : Option Nat)
    (h : LockHandle) (hacq : acquire opts st key ttlArg = (.ok h, st2)) :
    ((opts.nodes = 1 ∨ opts.nodes = 2) → h.metadata.strategy = "simple") ∧
    (3 ≤ opts.nodes → h.metadata.strategy = "redlock") := by
  unfold acquire at hacq
  split at hacq
  · exact absurd hacq (by simp)
  split at hacq
  · exact absurd hacq (by simp)
  simp only [Prod.mk.injEq, Except.ok.injEq] at hacq
  obtain ⟨hh, -⟩ := hacq
  subst hh
  constructor
  · rintro (h1 | h1) <;> simp [selectStrategy, h1]
  · intro h3
    show selectStrategy opts.nodes = "redlock"
    rw [selectStrategy, if_neg (by omega)]

/-- Witness for C1: concrete acquisitions against one and against three
configured nodes yield "simple" and "redlock" strategy metadata. -/
theorem acquire_strategy_selection_witness :
    handleStrategy (acquire oneNodeOpts readyState "test:lock" none).1 =
      some "simple" ∧
    handleStrategy (acquire threeNodeOpts readyState "test:lock" none).1 =
      some "redlock" := by
  constructor
  · have e1 : acquire oneNodeOpts readyState "test:lock" none =
        (.ok { key := "test:lock", value := 0, ttl := 30000
               metadata := { strategy := "simple" } },
         { initDone := true, nextToken := 1
           cache := [("test:lock",
             { key := "test:lock", value := 0, ttl := 30000
               metadata := { strategy := "simple" } })]
           ops := [BackendOp.setIfAbsent "test:lock" 0 30000] }) := rfl
    have := (acquire_strategy_selection oneNodeOpts readyState _ "test:lock" none _
      e1).1 (Or.inl rfl)
    rw [e1]
    simp [handleStrategy]
  · have e3 : acquire threeNodeOpts readyState "test:lock" none =
        (.ok { key := "test:lock", value := 0, ttl := 30000
               metadata := { strategy := "redlock" } },
         { initDone := true, nextToken := 1
           cache := [("test:lock",
             { key := "test:lock", value := 0, ttl := 30000
               metadata := { strategy := "redlock" } })]
           ops := [BackendOp.setIfAbsent "test:lock" 0 30000] }) := rfl
    have := (acquire_strategy_selection threeNodeOpts readyState _ "test:lock" none _
      e3).2 (by decide)
    rw [e3]
    simp [handleStrategy]

/-- C4: effective TTL resolution — an explicit `ttl` argument gives a handle
with exactly that TTL; otherwise a configured `defaultTtl` is used;
otherwise the handle carries the 30000 ms library default. -/
theorem acquire_effective_ttl (opts : CoordinatorOptions) (st : CoordinatorState)
    (key : String) (t : Nat) (hinit : st.initDone = true) (hkey : key ≠ "") :
    handleTtl (acquire opts st key (some t)).1 = some t ∧
    (∀ d : Nat, opts.defaultTtl = some d →
      handleTtl (acquire opts st key none).1 = some d) ∧
    (opts.defaultTtl = none →
      handleTtl (acquire opts st key none).1 = some 30000) := by
  refine ⟨?_, ?_, ?_⟩
  · simp [acquire, hinit, hkey, effectiveTtl, handleTtl]
  · intro d hd
    simp [acquire, hinit, hkey, effectiveTtl, hd, handleTtl]
  · intro hd
    simp [acquire, hinit, hkey, effectiveTtl, hd, handleTtl, DEFAULT_TTL_MS]

/-- Witness for C4: with no configured default the explicit argument 60000
and the library default 30000 are observed at a concrete coordinator. -/
theorem acquire_effective_ttl_witness :
    handleTtl (acquire oneNodeOpts readyState "test:lock" (some 60000)).1 =
      some 60000 ∧
    handleTtl (acquire oneNodeOpts readyState "test:lock" none).1 = some 30000 :=
  ⟨(acquire_effective_ttl oneNodeOpts readyState "test:lock" 60000 rfl
      (by decide)).1,
   (acquire_effective_ttl oneNodeOpts readyState "test:lock" 60000 rfl
      (by decide)).2.2 rfl⟩

/-- C2: `using(key, fn)` propagates the protected function's outcome
unchanged — a resolved value resolves through, a thrown error rejects
through — and on both exit paths the keep-alive timer ends cancelled and the
conditional delete on the backend was invoked. -/
theorem usingRun_cleanup_and_propagation {ε α : Type} (opts : CoordinatorOptions)
    (st : CoordinatorState) (key : String) (ttlArg : Option Nat)
    (fnOutcome : Except ε α) (hinit : st.initDone = true) (hkey : key ≠ "") :
    (usingRun opts st key ttlArg fnOutcome).1 = .ok fnOutcome ∧
    (usingRun opts st key ttlArg fnOutcome).2.2 = true ∧
    BackendOp.delIfMatch key st.nextToken ∈
      (usingRun opts st key ttlArg fnOutcome).2.1.ops := by
  refine ⟨?_, ?_, ?_⟩ <;> simp [usingRun, acquire, hinit, hkey, release]

/-- Witness for C2 on a concrete coordinator, once with a resolving
protected function and once with a throwing one. -/
theorem usingRun_cleanup_and_propagation_witness :
    ((usingRun oneNodeOpts readyState "test:lock" none
        (Except.ok "result" : Except String String)).1 =
          .ok (Except.ok "result") ∧
      (usingRun oneNodeOpts readyState "test:lock" none
        (Except.ok "result" : Except String String)).2.2 = true ∧
      BackendOp.delIfMatch "test:lock" readyState.nextToken ∈
        (usingRun oneNodeOpts readyState "test:lock" none
          (Except.ok "result" : Except String String)).2.1.ops) ∧
    ((usingRun oneNodeOpts readyState "test:lock" none
        (Except.error "Test error" : Except String String)).1 =
          .ok (Except.error "Test error") ∧
      (usingRun oneNodeOpts readyState "test:lock" none
        (Except.error "Test error" : Except String String)).2.2 = true ∧
      BackendOp.delIfMatch "test:lock" readyState.nextToken ∈
        (usingRun oneNodeOpts readyState "test:lock" none
          (Except.error "Test error" : Except String String)).2.1.ops) :=
  ⟨usingRun_cleanup_and_propagation oneNodeOpts readyState "test:lock" none
      (Except.ok "result") rfl (by decide),
   usingRun_cleanup_and_propagation oneNodeOpts readyState "test:lock" none
      (Except.error "Test error") rfl (by decide)⟩

/-- C3: a lock specification whose key resolves to an empty string or to a
non-string value fails the protected call with the error whose message is
exactly "Lock key must be a non-empty string", leaving the coordinator state
— and so the backend-operation trace, with no set-if-absent call — untouched. -/
theorem decorator_invalid_key_fails_fast {ε α : Type} (opts : CoordinatorOptions)
    (st : CoordinatorState) (spec : RedlockDecoratorSpec) (args : List JsVal)
    (fnOutcome : Except ε α)
    (hbad : isNonEmptyStr (resolveKey spec.key args) = false) :
    decoratorInvoke opts st spec args fnOutcome = (.error .invalidKey, st, false) ∧
    (decoratorInvoke opts st spec args fnOutcome).2.1.ops = st.ops ∧
    LockError.message .invalidKey = "Lock key must be a non-empty string" := by
  have hv : validateKey (resolveKey spec.key args) = .error .invalidKey := by
    cases hres : resolveKey spec.key args with
    | vstr s =>
      rw [hres] at hbad
      simp [isNonEmptyStr] at hbad
      simp [validateKey, hbad]
    | vnum n => simp [validateKey]
    | vnull => simp [validateKey]
  refine ⟨?_, ?_, rfl⟩ <;> simp [decoratorInvoke, hv]

/-- Witness for C3: a key generator returning the empty string and one
returning the number 123 both fail fast on a concrete coordinator. -/
theorem decorator_invalid_key_fails_fast_witness :
    decoratorInvoke oneNodeOpts readyState
        { key := LockKeySpec.fn (fun _ => JsVal.vstr "") } []
        (Except.ok "success" : Except String String) =
      (.error .invalidKey, readyState, false) ∧
    decoratorInvoke oneNodeOpts readyState
        { key := LockKeySpec.fn (fun _ => JsVal.vnum 123) } []
        (Except.ok "success" : Except String String) =
      (.error .invalidKey, readyState, false) ∧
    LockError.message .invalidKey = "Lock key must be a non-empty string" :=
  ⟨(decorator_invalid_key_fails_fast oneNodeOpts readyState
      { key := LockKeySpec.fn (fun _ => JsVal.vstr "") } []
      (Except.ok "success") rfl).1,
   (decorator_invalid_key_fails_fast oneNodeOpts readyState
      { key := LockKeySpec.fn (fun _ => JsVal.vnum 123) } []
      (Except.ok "success") rfl).1,
   rfl⟩

/-- C8: declarative key derivation — a key function is applied to the exact
positional arguments and its non-empty string return is the lock key (and is
the key the backend set-if-absent is issued with); a literal key is used
directly; and the example generator applied to "123" yields exactly
"user:123:lock". -/
theorem decorator_key_derivation :
    (∀ (f : List JsVal → JsVal) (args : List JsVal) (s : String),
      f args = JsVal.vstr s → s ≠ "" →
      validateKey (resolveKey (LockKeySpec.fn f) args) = .ok s) ∧
    (∀ (s : String) (args : List JsVal), s ≠ "" →
      validateKey (resolveKey (LockKeySpec.literal s) args) = .ok s) ∧
    (∀ (opts : CoordinatorOptions) (st : CoordinatorState)
      (f : List JsVal → JsVal) (args : List JsVal) (s : String)
      (fnOutcome : Except String String),
      st.initDone = true → f args = JsVal.vstr s → s ≠ "" →
      BackendOp.setIfAbsent s st.nextToken (effectiveTtl none opts) ∈
        (decoratorInvoke opts st { key := LockKeySpec.fn f } args
          fnOutcome).2.1.ops) ∧
    resolveKey (LockKeySpec.fn userKeyFn) [JsVal.vstr "123"] =
      JsVal.vstr "user:123:lock" := by
  refine ⟨?_, ?_, ?_, by decide⟩
  · intro f args s hf hs
    simp [resolveKey, hf, validateKey, hs]
  · intro s args hs
    simp [resolveKey, validateKey, hs]
  · intro opts st f args s fnOutcome hinit hf hs
    simp [decoratorInvoke, resolveKey, hf, validateKey, hs, usingRun, acquire,
      hinit, release]

/-- Witness for C8: the example generator on argument "123" resolves and
validates to "user:123:lock", a literal key is used directly, and the
resolved key is the one the concrete backend set-if-absent is issued with. -/
theorem decorator_key_derivation_witness :
    validateKey (resolveKey (LockKeySpec.fn userKeyFn) [JsVal.vstr "123"]) =
      .ok "user:123:lock" ∧
    validateKey (resolveKey (LockKeySpec.literal "static:test:lock") []) =
      .ok "static:test:lock" ∧
    BackendOp.setIfAbsent "user:123:lock" readyState.nextToken
        (effectiveTtl none oneNodeOpts) ∈
      (decoratorInvoke oneNodeOpts readyState { key := LockKeySpec.fn userKeyFn }
        [JsVal.vstr "123"]
        (Except.ok "processed-123" : Except String String)).2.1.ops ∧
    resolveKey (LockKeySpec.fn userKeyFn) [JsVal.vstr "123"] =
      JsVal.vstr "user:123:lock" :=
  ⟨decorator_key_derivation.1 userKeyFn [JsVal.vstr "123"] "user:123:lock"
      (by decide) (by decide),
   decorator_key_derivation.2.1 "static:test:lock" [] (by decide),
   decorator_key_derivation.2.2.1 oneNodeOpts readyState userKeyFn
      [JsVal.vstr "123"] "user:123:lock" (Except.ok "processed-123") rfl
      (by decide) (by decide),
   decorator_key_derivation.2.2.2⟩

/-- C5: locks acquired with an explicit custom TTL are never stored in or
served from the Retained-Lock Cache — acquiring a key twice with two
different explicit TTLs yields two handles carrying exactly those TTLs and
distinct fresh values, each release issues the backend conditional delete
with that handle's key and value, and the cache is left exactly as it
started. -/
theorem custom_ttl_never_cached (opts : CoordinatorOptions)
    (st0 : CoordinatorState) (key : String) (t1 t2 : Nat)
    (hinit : st0.initDone = true) (hkey : key ≠ "") (hne : t1 ≠ t2) :
    handleTtl (twoAcquireScenario opts st0 key t1 t2).1 = some t1 ∧
    handleTtl (twoAcquireScenario opts st0 key t1 t2).2.1 = some t2 ∧
    (∀ h1 h2 : LockHandle,
      (twoAcquireScenario opts st0 key t1 t2).1 = .ok h1 →
      (twoAcquireScenario opts st0 key t1 t2).2.1 = .ok h2 →
      h1.ttl ≠ h2.ttl ∧ h1.value ≠ h2.value ∧
      BackendOp.delIfMatch h1.key h1.value ∈
        (twoAcquireScenario opts st0 key t1 t2).2.2.ops ∧
      BackendOp.delIfMatch h2.key h2.value ∈
        (twoAcquireScenario opts st0 key t1 t2).2.2.ops) ∧
    (twoAcquireScenario opts st0 key t1 t2).2.2.cache = st0.cache := by
  have hs : twoAcquireScenario opts st0 key t1 t2 =
      (.ok { key := key, value := st0.nextToken, ttl := t1
             metadata := { strategy := selectStrategy opts.nodes } },
       .ok { key := key, value := st0.nextToken + 1, ttl := t2
             metadata := { strategy := selectStrategy opts.nodes } },
       { initDone := st0.initDone, nextToken := st0.nextToken + 2
         cache := st0.cache
         ops := st0.ops ++ [BackendOp.setIfAbsent key st0.nextToken t1]
           ++ [BackendOp.delIfMatch key st0.nextToken]
           ++ [BackendOp.setIfAbsent key (st0.nextToken + 1) t2]
           ++ [BackendOp.delIfMatch key (st0.nextToken + 1)] }) := by
    simp [twoAcquireScenario, acquire, release, hinit, hkey, effectiveTtl]
  rw [hs]
  refine ⟨rfl, rfl, ?_, rfl⟩
  intro h1 h2 e1 e2
  simp only [Except.ok.injEq] at e1 e2
  subst e1
  subst e2
  refine ⟨by simpa using hne, by show st0.nextToken ≠ st0.nextToken + 1; omega,
    by simp, by simp⟩

/-- Witness for C5 at the test scenario: TTLs 45000 then 120000 on the same
key of a concrete coordinator. -/
theorem custom_ttl_never_cached_witness :
    handleTtl (twoAcquireScenario oneNodeOpts readyState "test:key"
      45000 120000).1 = some 45000 ∧
    handleTtl (twoAcquireScenario oneNodeOpts readyState "test:key"
      45000 120000).2.1 = some 120000 ∧
    ({ key := "test:key", value := 0, ttl := 45000
       metadata := { strategy := "simple" } } : LockHandle).ttl ≠
      ({ key := "test:key", value := 1, ttl := 120000
         metadata := { strategy := "simple" } } : LockHandle).ttl ∧
    ({ key := "test:key", value := 0, ttl := 45000
       metadata := { strategy := "simple" } } : LockHandle).value ≠
      ({ key := "test:key", value := 1, ttl := 120000
         metadata := { strategy := "simple" } } : LockHandle).value ∧
    BackendOp.delIfMatch "test:key" 0 ∈
      (twoAcquireScenario oneNodeOpts readyState "test:key" 45000 120000).2.2.ops ∧
    BackendOp.delIfMatch "test:key" 1 ∈
      (twoAcquireScenario oneNodeOpts readyState "test:key" 45000 120000).2.2.ops ∧
    (twoAcquireScenario oneNodeOpts readyState "test:key" 45000 120000).2.2.cache =
      readyState.cache := by
  have H := custom_ttl_never_cached oneNodeOpts readyState "test:key" 45000 120000
    rfl (by decide) (by decide)
  have Hm := H.2.2.1
    { key := "test:key", value := 0, ttl := 45000
      metadata := { strategy := "simple" } }
    { key := "test:key", value := 1, ttl := 120000
      metadata := { strategy := "simple" } } rfl rfl
  exact ⟨H.1, H.2.1, Hm.1, Hm.2.1, Hm.2.2.1, Hm.2.2.2, H.2.2.2⟩

end Redlock
